import Mathlib

/-!
Verification of the FDA drug-label ingestion pipeline (python-seeder):
a shallow embedding of `parser.py`, `transformer.py` and `seeder.py`,
followed by theorems settling the specification claims.

Modelling conventions:
* JSON-ish values are embedded as `JVal` (strings and string-keyed
  mappings; those are the only shapes the pipeline's control flow
  distinguishes).  Python truthiness is `JVal.truthy`.
* Operations that can raise a Python exception (attribute access such as
  `.get`/`.lower()` on a non-mapping/non-string value) return
  `Except Unit _`; `transform` catches every exception and rejects the
  record, exactly like the `try/except` in the source.
* Regular expressions used by the source are embedded as explicit
  leftmost-match scanners over character lists, following the
  backtracking behaviour of the concrete patterns.
* The database is a pure state (`DB`): lists of drug rows and label
  rows plus a counter used to generate fresh identity keys (the model of
  `uuid.uuid4()`; generated keys are rendered as `"#<n>"`).  A storage
  fault model `fails : DrugRecord → Bool` marks the records whose
  insert/update statement raises, mirroring a per-record storage error.
-/

namespace DrugPipeline

/-- JSON-like values as far as the pipeline inspects them: strings and
string-keyed mappings. -/
inductive JVal where
  | str : String → JVal
  | obj : List (String × JVal) → JVal

/-- Python truthiness of a value: empty strings and empty dicts are falsy. -/
def JVal.truthy : JVal → Bool
  | .str s => !s.isEmpty
  | .obj l => !l.isEmpty

mutual
/-- Python `str(value)`: a string renders as itself, a dict as its repr. -/
def pyToString : JVal → String
  | .str s => s
  | .obj l => "\x7b" ++ pyFields l ++ "\x7d"

/-- Python `repr(value)` as used for values nested inside a dict. -/
def pyRepr : JVal → String
  | .str s => "\x27" ++ s ++ "\x27"
  | .obj l => "\x7b" ++ pyFields l ++ "\x7d"

/-- Comma-separated `'key': repr(value)` rendering of dict items. -/
def pyFields : List (String × JVal) → String
  | [] => ""
  | [(k, v)] => "\x27" ++ k ++ "\x27: " ++ pyRepr v
  | (k, v) :: r => "\x27" ++ k ++ "\x27: " ++ pyRepr v ++ ", " ++ pyFields r
end

/-- Characters matched by the regex class `\s` (ASCII fragment). -/
def is_space (c : Char) : Bool :=
  c = ' ' || c = '\t' || c = '\n' || c = '\r' || c = Char.ofNat 11 || c = Char.ofNat 12

/-- Worker for `collapse_ws`: the flag records whether the previous
character belonged to a whitespace run that has already emitted its
single replacement space. -/
def collapse_aux : Bool → List Char → List Char
  | _, [] => []
  | prevSpace, c :: cs =>
    if is_space c then
      if prevSpace then collapse_aux true cs
      else ' ' :: collapse_aux true cs
    else c :: collapse_aux false cs

/-- Model of `re.sub(r'\s+', ' ', text)`: every maximal whitespace run becomes one space. -/
def collapse_ws (l : List Char) : List Char := collapse_aux false l

/-- Python `str.strip()` restricted to the characters of `\s`. -/
def strip_chars (l : List Char) : List Char :=
  ((l.dropWhile is_space).reverse.dropWhile is_space).reverse

/-- Worker for `strip_tags`: the flag records being inside a `<...>` tag. -/
def strip_tags_aux : Bool → List Char → List Char
  | _, [] => []
  | inTag, c :: cs =>
    if inTag then
      if c = Char.ofNat 62 then strip_tags_aux false cs else strip_tags_aux true cs
    else
      if c = Char.ofNat 60 then strip_tags_aux true cs
      else c :: strip_tags_aux false cs

/-- Model of `BeautifulSoup(...).get_text()` on string input: drop the
markup tags and keep the visible text. -/
def strip_tags (l : List Char) : List Char := strip_tags_aux false l

/-- Python `str.lower()` (ASCII). -/
def to_lower (s : String) : String := String.mk (s.toList.map Char.toLower)

/-- Python `str.upper()` (ASCII). -/
def to_upper (s : String) : String := String.mk (s.toList.map Char.toUpper)

/-- Worker for the Python substring test: scans every suffix. -/
def contains_scan (n : List Char) : List Char → Bool
  | [] => n.isEmpty
  | l@(_ :: cs) => n.isPrefixOf l || contains_scan n cs

/-- Python substring test `needle in hay`. -/
def contains_sub (needle hay : String) : Bool :=
  contains_scan needle.toList hay.toList

/-- Python `str.split(sep)` for a one-character separator. -/
def split_on_char (sep : Char) : List Char → List (List Char)
  | [] => [[]]
  | c :: cs =>
    match split_on_char sep cs with
    | [] => [[c]]
    | h :: t => if c = sep then [] :: h :: t else (c :: h) :: t

/-- Python `sep.join(parts)`. -/
def join_with (sep : String) : List String → String
  | [] => ""
  | [s] => s
  | s :: r => s ++ sep ++ join_with sep r

/-- Model of `DrugDataTransformer._clean_text`: falsy input gives `None`, otherwise
whitespace runs are collapsed and the result stripped; an empty result is
`None`.  Non-string values go through `str(...)` first. -/
def clean_text : Option JVal → Option String
  | none => none
  | some v =>
    if v.truthy then
      if (String.mk (strip_chars (collapse_ws (pyToString v).toList))).isEmpty then none
      else some (String.mk (strip_chars (collapse_ws (pyToString v).toList)))
    else none

/-- Model of `DrugDataTransformer._clean_html_content`: falsy input gives `None`;
string input is reduced to visible text then whitespace-normalised; a
non-string value makes the markup parser fail, falling back to
`_clean_text` on the raw value. -/
def clean_html_content : Option JVal → Option String
  | none => none
  | some v =>
    if v.truthy then
      match v with
      | .str s =>
        if (String.mk (strip_chars (collapse_ws (strip_tags s.toList)))).isEmpty then none
        else some (String.mk (strip_chars (collapse_ws (strip_tags s.toList))))
      | .obj l => clean_text (some (.obj l))
    else none

instance {ε α : Type} [DecidableEq ε] [DecidableEq α] : DecidableEq (Except ε α)
  | .ok a, .ok b =>
    decidable_of_iff (a = b) ⟨fun h => by rw [h], fun h => by injection h⟩
  | .error a, .error b =>
    decidable_of_iff (a = b) ⟨fun h => by rw [h], fun h => by injection h⟩
  | .ok _, .error _ => isFalse (fun h => Except.noConfusion h)
  | .error _, .ok _ => isFalse (fun h => Except.noConfusion h)

/-- A data-quality issue `{type, description}` as logged by
`DrugDataTransformer._log_quality_issue`. -/
abbrev Issue := String × String

/-- Python `value.get(key)`: field lookup on a mapping; raises
(`AttributeError`) on a non-mapping value. -/
def jget (label : JVal) (k : String) : Except Unit (Option JVal) :=
  match label with
  | .obj l => .ok (l.lookup k)
  | .str _ => .error ()

/-- Python `value.get(key, default)`. -/
def jget_d (label : JVal) (k : String) (d : JVal) : Except Unit JVal :=
  (jget label k).map (fun o => o.getD d)

/-- Using a value as a Python `str` (e.g. calling `.lower()`/`.upper()` on
it): raises on a mapping. -/
def as_str : JVal → Except Unit String
  | .str s => .ok s
  | .obj _ => .error ()

/-- Python `str.rstrip(c)`. -/
def rstrip_char (c : Char) (l : List Char) : List Char :=
  (l.reverse.dropWhile (fun x => x = c)).reverse

/-- Model of `DrugDataTransformer._safe_extract_drug_name`: the ordered fallback
chain `drugName` → `name` → `productName` → `brandName` → label `title`,
each candidate passed through `_clean_text`; fallbacks beyond the primary
key log a quality issue.  Touching the label title raises when the label
value is not a mapping. -/
def safe_extract_drug_name (rf : List (String × JVal)) (label : JVal) :
    Except Unit (Option String × List Issue) :=
  match clean_text (rf.lookup "drugName") with
  | some n => .ok (some n, [])
  | none =>
  match clean_text (rf.lookup "name") with
  | some n => .ok (some n, [("Alternative name source", "Used name instead of drugName")])
  | none =>
  match clean_text (rf.lookup "productName") with
  | some n => .ok (some n, [("Alternative name source", "Used productName instead of drugName")])
  | none =>
  match clean_text (rf.lookup "brandName") with
  | some n => .ok (some n, [("Alternative name source", "Used brandName instead of drugName")])
  | none =>
  match jget label "title" with
  | .error e => .error e
  | .ok t =>
    match clean_text t with
    | some n => .ok (some n, [("Label title used", "Used label title as drug name")])
    | none => .ok (none, [])

/-- Model of `DrugDataTransformer._safe_extract_manufacturer`: fallback chain
`labeler` → `manufacturer` → `company` → `sponsor` → label `labelerName`,
finally the default sentinel `"Unknown Manufacturer"`. -/
def safe_extract_manufacturer (rf : List (String × JVal)) (label : JVal) :
    Except Unit (String × List Issue) :=
  match clean_text (rf.lookup "labeler") with
  | some m => .ok (m, [])
  | none =>
  match clean_text (rf.lookup "manufacturer") with
  | some m => .ok (m, [("Alternative manufacturer source", "Used manufacturer instead of labeler")])
  | none =>
  match clean_text (rf.lookup "company") with
  | some m => .ok (m, [("Alternative manufacturer source", "Used company instead of labeler")])
  | none =>
  match clean_text (rf.lookup "sponsor") with
  | some m => .ok (m, [("Alternative manufacturer source", "Used sponsor instead of labeler")])
  | none =>
  match jget label "labelerName" with
  | .error e => .error e
  | .ok ln =>
    match clean_text ln with
    | some m => .ok (m, [("Label labeler used", "Used label labelerName as manufacturer")])
    | none => .ok ("Unknown Manufacturer", [("Missing manufacturer", "Using default manufacturer")])

/-- Model of `DrugDataTransformer._safe_extract_indications`: fallback chain
`indicationsAndUsage` → `indications` → `usage` → `indication`, each via
`_clean_html_content`, finally the default sentinel `"Not available"`. -/
def safe_extract_indications (label : JVal) : Except Unit (String × List Issue) :=
  match jget label "indicationsAndUsage" with
  | .error e => .error e
  | .ok v0 =>
  match clean_html_content v0 with
  | some i => .ok (i, [])
  | none =>
  match jget label "indications" with
  | .error e => .error e
  | .ok v1 =>
  match clean_html_content v1 with
  | some i => .ok (i, [("Alternative indications source", "Used indications instead of indicationsAndUsage")])
  | none =>
  match jget label "usage" with
  | .error e => .error e
  | .ok v2 =>
  match clean_html_content v2 with
  | some i => .ok (i, [("Alternative indications source", "Used usage instead of indicationsAndUsage")])
  | none =>
  match jget label "indication" with
  | .error e => .error e
  | .ok v3 =>
  match clean_html_content v3 with
  | some i => .ok (i, [("Alternative indications source", "Used indication instead of indicationsAndUsage")])
  | none => .ok ("Not available", [("Missing indications", "Using default indications")])

/-- Second half of `_extract_generic_name`: the title-based fallback. -/
def extract_generic_from_title (label : JVal) : Except Unit (Option String) :=
  match jget_d label "title" (.str "") with
  | .error e => .error e
  | .ok t =>
    match as_str t with
    | .error e => .error e
    | .ok ts =>
      if contains_sub "generic" (to_lower ts) then
        match split_on_char '(' ts.toList with
        | _ :: p2 :: _ => .ok (clean_text (some (.str (String.mk (rstrip_char ')' p2)))))
        | _ => .ok none
      else .ok none

/-- Model of `DrugDataTransformer._extract_generic_name`: prefer the
`genericName` field; otherwise, when the title mentions "generic", take
the text after the first opening parenthesis with trailing closing
parentheses stripped. -/
def extract_generic_name (label : JVal) : Except Unit (Option String) :=
  match jget label "genericName" with
  | .error e => .error e
  | .ok gn =>
    match gn with
    | some v =>
      if v.truthy then .ok (clean_text (some v))
      else extract_generic_from_title label
    | none => extract_generic_from_title label

/-- Model of `DrugDataTransformer._extract_brand_name`: the title when it differs
from the drug name case-insensitively, else the drug name itself. -/
def extract_brand_name (drug_name : String) (label : JVal) : Except Unit (Option String) :=
  match jget_d label "title" (.str "") with
  | .error e => .error e
  | .ok t =>
    if t.truthy then
      match as_str t with
      | .error e => .error e
      | .ok ts =>
        if to_upper ts ≠ to_upper drug_name then .ok (clean_text (some t))
        else .ok (clean_text (some (.str drug_name)))
    else .ok (clean_text (some (.str drug_name)))

/-- Model of `field_text = self._clean_html_content(field_value) or field_value`
followed by using the result as a string. -/
def field_text_or_raw (fv : JVal) : Except Unit String :=
  match clean_html_content (some fv) with
  | some t => .ok t
  | none => as_str fv

/-- Python `str.title()` for a single lowercase word. -/
def py_title_word (s : String) : String :=
  match s.toList with
  | [] => ""
  | c :: cs => String.mk (c.toUpper :: cs)

/-- The controlled vocabulary of dosage forms scanned by
`_extract_dosage_form`. -/
def common_forms : List String :=
  ["tablet", "capsule", "injection", "solution", "suspension",
   "cream", "ointment", "gel", "patch", "spray", "inhaler",
   "syrup", "powder", "granules", "suppository", "drops",
   "lotion", "foam", "film", "strip", "pellet"]

/-- Alternative-field loop of `_extract_dosage_form` over
`dosageForm`/`formulation`/`productType`. -/
def dosage_form_alt (label : JVal) : List String → Except Unit (String × List Issue)
  | [] => .ok ("Unknown", [("Missing dosage form", "Using default dosage form")])
  | f :: rest =>
    match jget_d label f (.str "") with
    | .error e => .error e
    | .ok fv =>
      if fv.truthy then
        match field_text_or_raw fv with
        | .error e => .error e
        | .ok ft =>
          if contains_sub "injection" (to_lower ft) then .ok ("Injection", [])
          else if contains_sub "tablet" (to_lower ft) then .ok ("Tablet", [])
          else if contains_sub "capsule" (to_lower ft) then .ok ("Capsule", [])
          else dosage_form_alt label rest
      else dosage_form_alt label rest

/-- Model of `DrugDataTransformer._extract_dosage_form`. -/
def extract_dosage_form (label : JVal) : Except Unit (String × List Issue) :=
  match jget_d label "dosageFormsAndStrengths" (.str "") with
  | .error e => .error e
  | .ok fs =>
    if fs.truthy then
      let forms_text := (clean_html_content (some fs)).getD ""
      match common_forms.find? (fun f => contains_sub f (to_lower forms_text)) with
      | some f => .ok (py_title_word f, [])
      | none => dosage_form_alt label ["dosageForm", "formulation", "productType"]
    else dosage_form_alt label ["dosageForm", "formulation", "productType"]

/-- Maximal digit run and remainder (`\d+` greedy). -/
def take_digits (l : List Char) : List Char × List Char :=
  (l.takeWhile Char.isDigit, l.dropWhile Char.isDigit)

/-- Regex `\d+`: at least one digit. -/
def match_digits (l : List Char) : Option (List Char × List Char) :=
  let p := take_digits l
  if p.1.isEmpty then none else some p

/-- Regex `(?:\.\d+)?`: an optional decimal fraction; consumes nothing when the
dot is not followed by a digit. -/
def match_frac : List Char → List Char × List Char
  | '.' :: rest =>
    let p := take_digits rest
    if p.1.isEmpty then ([], '.' :: rest) else ('.' :: p.1, p.2)
  | l => ([], l)

/-- Regex `\s*` (greedy). -/
def match_spaces (l : List Char) : List Char × List Char :=
  (l.takeWhile is_space, l.dropWhile is_space)

/-- A case-insensitive literal; returns the source slice unchanged. -/
def match_ci_lit (lit : String) (l : List Char) : Option (List Char × List Char) :=
  let n := lit.length
  let pre := l.take n
  if pre.length = n && pre.map Char.toLower = lit.toList.map Char.toLower then
    some (pre, l.drop n)
  else none

/-- First matching alternative of a regex alternation (the rest of each
pattern cannot fail after the unit, so no backtracking is needed). -/
def match_ci_alt (alts : List String) (l : List Char) : Option (List Char × List Char) :=
  match alts with
  | [] => none
  | a :: rest =>
    match match_ci_lit a l with
    | some r => some r
    | none => match_ci_alt rest l

/-- Regex `(?:mg|g|mcg|μg|units?|iu)`: the numerator units shared by the first
two strength patterns. -/
def match_unit_core (l : List Char) : Option (List Char × List Char) :=
  match match_ci_alt ["mg", "g", "mcg", "μg"] l with
  | some r => some r
  | none =>
    match match_ci_lit "unit" l with
    | some (u, r) =>
      match match_ci_lit "s" r with
      | some (s1, r2) => some (u ++ s1, r2)
      | none => some (u, r)
    | none => match_ci_lit "iu" l

/-- Numerator unit of strength pattern 1, which also allows `%`. -/
def match_unit_num (l : List Char) : Option (List Char × List Char) :=
  match match_unit_core l with
  | some r => some r
  | none => match_ci_lit "%" l

/-- Strength pattern 1 tried at one position:
`\d+(?:\.\d+)?\s*(?:mg|g|mcg|μg|units?|iu|%)\s*(?:/\s*\d+(?:\.\d+)?\s*(?:mg|g|mcg|μg|mL|tablet|capsule))?`.
The denominator group requires a digit after the slash. -/
def try_pat1 (l : List Char) : Option (List Char) :=
  match match_digits l with
  | none => none
  | some (d, r1) =>
    let fp := match_frac r1
    let sp1 := match_spaces fp.2
    match match_unit_num sp1.2 with
    | none => none
    | some (u, r4) =>
      let den : List Char :=
        match r4 with
        | '/' :: r5 =>
          let sp2 := match_spaces r5
          match match_digits sp2.2 with
          | none => []
          | some (d2, r7) =>
            let fp2 := match_frac r7
            let sp3 := match_spaces fp2.2
            match match_ci_alt ["mg", "g", "mcg", "μg", "mL", "tablet", "capsule"] sp3.2 with
            | none => []
            | some (u2, _) => '/' :: (sp2.1 ++ d2 ++ fp2.1 ++ sp3.1 ++ u2)
        | _ => []
      some (d ++ fp.1 ++ sp1.1 ++ u ++ den)

/-- Strength pattern 2 tried at one position:
`\d+(?:\.\d+)?\s*(?:mg|g|mcg|μg|units?|iu)\s*per\s*\d+(?:\.\d+)?\s*(?:mL|tablet|capsule)`. -/
def try_pat2 (l : List Char) : Option (List Char) :=
  match match_digits l with
  | none => none
  | some (d, r1) =>
    let fp := match_frac r1
    let sp1 := match_spaces fp.2
    match match_unit_core sp1.2 with
    | none => none
    | some (u, r4) =>
      let sp2 := match_spaces r4
      match match_ci_lit "per" sp2.2 with
      | none => none
      | some (p, r5) =>
        let sp3 := match_spaces r5
        match match_digits sp3.2 with
        | none => none
        | some (d2, r6) =>
          let fp2 := match_frac r6
          let sp4 := match_spaces fp2.2
          match match_ci_alt ["mL", "tablet", "capsule"] sp4.2 with
          | none => none
          | some (u2, _) =>
            some (d ++ fp.1 ++ sp1.1 ++ u ++ sp2.1 ++ p ++ sp3.1 ++ d2 ++ fp2.1 ++ sp4.1 ++ u2)

/-- Strength pattern 3 tried at one position: `\d+(?:\.\d+)?\s*%`. -/
def try_pat3 (l : List Char) : Option (List Char) :=
  match match_digits l with
  | none => none
  | some (d, r1) =>
    let fp := match_frac r1
    let sp1 := match_spaces fp.2
    match match_ci_lit "%" sp1.2 with
    | none => none
    | some (u, _) => some (d ++ fp.1 ++ sp1.1 ++ u)

/-- Leftmost match of a single-position matcher, as `re.findall`'s first
result / `re.search`. -/
def scan_for (p : List Char → Option (List Char)) : List Char → Option (List Char)
  | [] => p []
  | l@(_ :: cs) =>
    match p l with
    | some m => some m
    | none => scan_for p cs

/-- Model of `DrugDataTransformer._parse_strength_from_text`: first match of the
three strength patterns, in order. -/
def parse_strength_from_text (text : String) : Option String :=
  if text.isEmpty then none
  else
    match scan_for try_pat1 text.toList with
    | some m => some (String.mk m)
    | none =>
      match scan_for try_pat2 text.toList with
      | some m => some (String.mk m)
      | none => (scan_for try_pat3 text.toList).map String.mk

/-- Alternative-field loop of `_extract_strength` over
`strength`/`activeIngredient`/`concentration`. -/
def strength_alt (label : JVal) : List String → Except Unit (String × List Issue)
  | [] => .ok ("Not specified", [("Missing strength", "Using default strength")])
  | f :: rest =>
    match jget_d label f (.str "") with
    | .error e => .error e
    | .ok fv =>
      if fv.truthy then
        match field_text_or_raw fv with
        | .error e => .error e
        | .ok ft =>
          match parse_strength_from_text ft with
          | some s => .ok (s, [("Alternative strength source", "Used " ++ f ++ " for strength")])
          | none => strength_alt label rest
      else strength_alt label rest

/-- Model of `DrugDataTransformer._extract_strength`. -/
def extract_strength (label : JVal) : Except Unit (String × List Issue) :=
  match jget_d label "dosageFormsAndStrengths" (.str "") with
  | .error e => .error e
  | .ok fs =>
    if fs.truthy then
      let strength_text := (clean_html_content (some fs)).getD ""
      match parse_strength_from_text strength_text with
      | some s => .ok (s, [])
      | none => strength_alt label ["strength", "activeIngredient", "concentration"]
    else strength_alt label ["strength", "activeIngredient", "concentration"]

/-- The controlled vocabulary of routes scanned by
`_parse_route_from_text`, in source order. -/
def routes_vocab : List (String × String) :=
  [("subcutaneous", "Subcutaneous"), ("intravenous", "Intravenous"),
   ("intramuscular", "Intramuscular"), ("injection", "Injection"),
   ("oral", "Oral"), ("topical", "Topical"), ("inhalation", "Inhalation"),
   ("inhaled", "Inhalation"), ("rectal", "Rectal"), ("ophthalmic", "Ophthalmic"),
   ("nasal", "Nasal"), ("transdermal", "Transdermal"),
   ("sublingual", "Sublingual"), ("buccal", "Buccal")]

/-- Model of `DrugDataTransformer._parse_route_from_text`. -/
def parse_route_from_text (text : String) : Option String :=
  if text.isEmpty then none
  else ((routes_vocab.find? (fun r => contains_sub r.1 (to_lower text))).map (fun r => r.2))

/-- Alternative-field loop of `_extract_route` over
`route`/`administration`/`productType`. -/
def route_alt (label : JVal) : List String → Except Unit (String × List Issue)
  | [] => .ok ("Unknown", [("Missing route", "Using default route")])
  | f :: rest =>
    match jget_d label f (.str "") with
    | .error e => .error e
    | .ok fv =>
      if fv.truthy then
        match field_text_or_raw fv with
        | .error e => .error e
        | .ok ft =>
          match parse_route_from_text ft with
          | some r => .ok (r, [("Alternative route source", "Used " ++ f ++ " for route")])
          | none => route_alt label rest
      else route_alt label rest

/-- Model of `DrugDataTransformer._extract_route`. -/
def extract_route (label : JVal) : Except Unit (String × List Issue) :=
  match jget_d label "dosageAndAdministration" (.str "") with
  | .error e => .error e
  | .ok ds =>
    if ds.truthy then
      let route_text := (clean_html_content (some ds)).getD ""
      match parse_route_from_text route_text with
      | some r => .ok (r, [])
      | none => route_alt label ["route", "administration", "productType"]
    else route_alt label ["route", "administration", "productType"]

/-- Exactly `k` digits (`\d{k}` at a fixed width). -/
def take_digit_run (k : Nat) (l : List Char) : Option (List Char × List Char) :=
  let p := l.take k
  if p.length = k && p.all Char.isDigit then some (p, l.drop k) else none

/-- One widths choice of the NDC code `\d{a}-\d{b}-\d{2}`. -/
def ndc_try (a b : Nat) (l : List Char) : Option (List Char) :=
  match take_digit_run a l with
  | none => none
  | some (d1, r1) =>
    match r1 with
    | '-' :: r2 =>
      match take_digit_run b r2 with
      | none => none
      | some (d2, r3) =>
        match r3 with
        | '-' :: r4 =>
          match take_digit_run 2 r4 with
          | none => none
          | some (d3, _) => some (d1 ++ '-' :: d2 ++ '-' :: d3)
        | _ => none
    | _ => none

/-- Regex `NDC\s*:?\s*(\d{4,5}-\d{3,4}-\d{2})` tried at one position, returning
the captured group; the greedy `\d{4,5}`/`\d{3,4}` backtracking order is
(5,4), (5,3), (4,4), (4,3). -/
def try_ndc_at (l : List Char) : Option (List Char) :=
  match match_ci_lit "NDC" l with
  | none => none
  | some (_, r1) =>
    let sp1 := match_spaces r1
    let r3 := match sp1.2 with | ':' :: t => t | _ => sp1.2
    let sp2 := match_spaces r3
    match ndc_try 5 4 sp2.2 with
    | some m => some m
    | none =>
      match ndc_try 5 3 sp2.2 with
      | some m => some m
      | none =>
        match ndc_try 4 4 sp2.2 with
        | some m => some m
        | none => ndc_try 4 3 sp2.2

/-- Model of `DrugDataTransformer._extract_ndc`: search the cleaned "how
supplied" narrative for the NDC pattern. -/
def extract_ndc (label : JVal) : Except Unit (Option String) :=
  match jget_d label "howSupplied" (.str "") with
  | .error e => .error e
  | .ok hs =>
    if hs.truthy then
      let text := (clean_html_content (some hs)).getD ""
      .ok ((scan_for try_ndc_at text.toList).map String.mk)
    else .ok none

/-- Model of `DrugDataTransformer._extract_approval_date`: any truthy value whose
`str()` form has exactly 8 characters is reformatted with dashes; nothing
else yields a date.  The digits themselves are not checked. -/
def extract_approval_date (label : JVal) : Except Unit (Option String) :=
  match jget label "effectiveTime" with
  | .error e => .error e
  | .ok et =>
    match et with
    | none => .ok none
    | some v =>
      if v.truthy && (pyToString v).length = 8 then
        let d := (pyToString v).toList
        .ok (some (String.mk (d.take 4 ++ '-' :: ((d.drop 4).take 2) ++ '-' :: ((d.drop 6).take 2))))
      else .ok none

/-- The line loop shared by `_extract_mechanism_of_action` and
`_extract_pharmacokinetics`: a line containing the heading keyword opens
the section (and is skipped), a line containing a stop keyword ends it,
non-empty lines in between are collected stripped. -/
def section_scan (head_kw : String) (stops : List String) :
    List (List Char) → Bool → List String → List String
  | [], _, acc => acc
  | ln :: ls, in_sec, acc =>
    let low := to_lower (String.mk ln)
    if contains_sub head_kw low then section_scan head_kw stops ls true acc
    else if in_sec then
      if stops.any (fun st => contains_sub st low) then acc
      else
        let stripped := strip_chars ln
        if stripped.isEmpty then section_scan head_kw stops ls true acc
        else section_scan head_kw stops ls true (acc ++ [String.mk stripped])
    else section_scan head_kw stops ls false acc

/-- Model of `DrugDataTransformer._extract_mechanism_of_action`: scan the cleaned
`clinicalPharmacology` text line by line for the "mechanism of action"
section and join the collected lines with spaces. -/
def extract_mechanism_of_action (label : JVal) : Except Unit (Option String) :=
  match jget_d label "clinicalPharmacology" (.str "") with
  | .error e => .error e
  | .ok cp =>
    if cp.truthy then
      let text := (clean_html_content (some cp)).getD ""
      let lines := split_on_char '\n' text.toList
      let ml := section_scan "mechanism of action"
        ["pharmacodynamics", "pharmacokinetics", "absorption"] lines false []
      .ok (if ml.isEmpty then none else some (join_with " " ml))
    else .ok none

/-- Model of `DrugDataTransformer._extract_pharmacokinetics`: the analogous scan
for the "pharmacokinetics" section. -/
def extract_pharmacokinetics (label : JVal) : Except Unit (Option String) :=
  match jget_d label "clinicalPharmacology" (.str "") with
  | .error e => .error e
  | .ok cp =>
    if cp.truthy then
      let text := (clean_html_content (some cp)).getD ""
      let lines := split_on_char '\n' text.toList
      let pl := section_scan "pharmacokinetics"
        ["clinical studies", "drug interactions", "mechanism"] lines false []
      .ok (if pl.isEmpty then none else some (join_with " " pl))
    else .ok none

/-- Model of `transformer.DrugRecord`: the structured record ready for database
insertion.  `set_id`/`slug` are carried verbatim from the raw document. -/
structure DrugRecord where
  name : String
  generic_name : Option String
  brand_name : Option String
  manufacturer : String
  dosage_form : String
  strength : String
  route : String
  ndc : Option String
  fda_application_number : Option String
  approval_date : Option String
  indications : String
  contraindications : Option String
  warnings : Option String
  precautions : Option String
  adverse_reactions : Option String
  dosage_and_administration : Option String
  how_supplied : Option String
  clinical_pharmacology : Option String
  mechanism_of_action : Option String
  pharmacokinetics : Option String
  set_id : Option JVal
  slug : Option JVal

/-- Model of `label.get(key)` followed by `_clean_html_content`, the idiom used for
the plain narrative fields of `transform`. -/
def clean_label_field (label : JVal) (k : String) : Except Unit (Option String) :=
  match jget label k with
  | .error e => .error e
  | .ok v => .ok (clean_html_content v)

/-- Model of `DrugDataTransformer.transform` inside the `try` block: any raised
exception is an `.error`, caught by the caller.  Returns the produced
record (or `none` for an explicit rejection) together with the ordered
quality-issue list. -/
def transform_core (rf : List (String × JVal)) (label : JVal) (i0 : List Issue) :
    Except Unit (Option DrugRecord × List Issue) :=
  match safe_extract_drug_name rf label with
  | .error e => .error e
  | .ok (none, i1) =>
    .ok (none, i0 ++ i1 ++ [("Missing drug name", "Cannot process drug without name")])
  | .ok (some drug_name, i1) =>
  match safe_extract_manufacturer rf label with
  | .error e => .error e
  | .ok (manufacturer, i2) =>
  match extract_generic_name label with
  | .error e => .error e
  | .ok generic_name =>
  match extract_brand_name drug_name label with
  | .error e => .error e
  | .ok brand_name =>
  match extract_dosage_form label with
  | .error e => .error e
  | .ok (dosage_form, i3) =>
  match extract_strength label with
  | .error e => .error e
  | .ok (strength, i4) =>
  match extract_route label with
  | .error e => .error e
  | .ok (route, i5) =>
  match extract_ndc label with
  | .error e => .error e
  | .ok ndc =>
  match extract_approval_date label with
  | .error e => .error e
  | .ok approval_date =>
  match safe_extract_indications label with
  | .error e => .error e
  | .ok (indications, i6) =>
  match clean_label_field label "contraindications" with
  | .error e => .error e
  | .ok contraindications =>
  match clean_label_field label "warningsAndPrecautions" with
  | .error e => .error e
  | .ok warnings =>
  match clean_label_field label "adverseReactions" with
  | .error e => .error e
  | .ok adverse_reactions =>
  match clean_label_field label "dosageAndAdministration" with
  | .error e => .error e
  | .ok dosage_and_administration =>
  match clean_label_field label "howSupplied" with
  | .error e => .error e
  | .ok how_supplied =>
  match clean_label_field label "clinicalPharmacology" with
  | .error e => .error e
  | .ok clinical_pharmacology =>
  match extract_mechanism_of_action label with
  | .error e => .error e
  | .ok mechanism_of_action =>
  match extract_pharmacokinetics label with
  | .error e => .error e
  | .ok pharmacokinetics =>
    .ok (some
      { name := drug_name
        generic_name := generic_name
        brand_name := brand_name
        manufacturer := manufacturer
        dosage_form := dosage_form
        strength := strength
        route := route
        ndc := ndc
        fda_application_number := none
        approval_date := approval_date
        indications := indications
        contraindications := contraindications
        warnings := warnings
        precautions := none
        adverse_reactions := adverse_reactions
        dosage_and_administration := dosage_and_administration
        how_supplied := how_supplied
        clinical_pharmacology := clinical_pharmacology
        mechanism_of_action := mechanism_of_action
        pharmacokinetics := pharmacokinetics
        set_id := rf.lookup "setId"
        slug := rf.lookup "slug" },
      i0 ++ i1 ++ i2 ++ i3 ++ i4 ++ i5 ++ i6)

/-- Model of `DrugDataTransformer.transform` inside the `try` block: fetch the
label (defaulting to an empty mapping), log a missing-label issue when
it is falsy, then run the extraction chain. -/
def transformE (rf : List (String × JVal)) : Except Unit (Option DrugRecord × List Issue) :=
  transform_core rf ((rf.lookup "label").getD (.obj []))
    (if ((rf.lookup "label").getD (.obj [])).truthy then []
     else [("Missing label", "Drug has no label data")])

/-- Model of `DrugDataTransformer.transform`: a non-mapping input is rejected with
an "Invalid data type" issue; inside the `try` block every exception is
caught and the record rejected. -/
def transform (raw : JVal) : Option DrugRecord × List Issue :=
  match raw with
  | .str _ => (none, [("Invalid data type", "Expected dict")])
  | .obj rf =>
    match transformE rf with
    | .ok r => r
    | .error _ => (none, [])

/-- A row of the `drugs` table, with the columns written by
`_insert_drug`/`_update_drug` (timestamps omitted). -/
structure DrugRow where
  id : String
  drug_name : String
  set_id : Option JVal
  slug : Option JVal
  labeler : String
  name : String
  generic_name : Option String
  brand_name : Option String
  manufacturer : String
  dosage_form : String
  strength : String
  route : String
  ndc : Option String
  fda_application_number : Option String
  approval_date : Option String

/-- A row of the `drug_labels` table, with the columns written by
`_insert_drug_label` (timestamps omitted). -/
structure LabelRow where
  id : String
  drug_id : String
  generic_name : Option String
  labeler_name : String
  product_type : String
  title : String
  indications_and_usage : String
  dosage_and_administration : Option String
  contraindications : Option String
  warnings_and_precautions : Option String
  adverse_reactions : Option String
  clinical_pharmacology : Option String
  how_supplied : Option String
  mechanism_of_action : Option String
  indications : String
  warnings : Option String
  precautions : Option String
  pharmacokinetics : Option String

/-- The storage state: the two tables plus the counter from which fresh
identity keys (the model of `uuid.uuid4()`) are drawn. -/
structure DB where
  drugs : List DrugRow
  labels : List LabelRow
  next_id : Nat

/-- The empty database. -/
def DB.empty : DB := { drugs := [], labels := [], next_id := 0 }

/-- Generate a fresh identity key, `uuid.uuid4()` in the source; the
model renders generated keys as `"#<n>"`. -/
def gen_id (db : DB) : String × DB :=
  ("#" ++ toString db.next_id, { db with next_id := db.next_id + 1 })

/-- The seeding statistics dictionary of `DrugDatabaseSeeder`. -/
structure Stats where
  processed : Nat
  inserted : Nat
  updated : Nat
  skipped : Nat
  errors : Nat
deriving Repr, DecidableEq

/-- The zeroed statistics of a freshly constructed seeder. -/
def Stats.init : Stats :=
  { processed := 0, inserted := 0, updated := 0, skipped := 0, errors := 0 }

/-- Model of `DrugDatabaseSeeder._validate_record`: name, manufacturer and
indications must be non-empty after stripping, and name/manufacturer at
most 255 characters. -/
def validate_record (r : DrugRecord) : Bool :=
  let e1 := r.name.isEmpty || (String.mk (strip_chars r.name.toList)).isEmpty
  let e2 := r.manufacturer.isEmpty || (String.mk (strip_chars r.manufacturer.toList)).isEmpty
  let e3 := r.indications.isEmpty || (String.mk (strip_chars r.indications.toList)).isEmpty
  let e4 := decide (255 < r.name.length)
  let e5 := decide (255 < r.manufacturer.length)
  !(e1 || e2 || e3 || e4 || e5)

/-- The first branch of `_find_existing_drug`: the query
`SELECT d.id FROM drugs d JOIN drug_labels dl ON d.id = dl.drug_id
WHERE dl.id = %s LIMIT 1` with the record's `set_id` as parameter — it
compares the parameter against the generated primary key of
`drug_labels`, not against the stored `set_id` column. -/
def find_by_set_id (db : DB) (sid : String) : Option String :=
  (db.labels.find? (fun dl => dl.id = sid && db.drugs.any (fun d => d.id = dl.drug_id))).map
    (fun dl => dl.drug_id)

/-- The second branch of `_find_existing_drug`: case-insensitive match on
`(drug_name, manufacturer)`. -/
def find_by_name_manufacturer (db : DB) (r : DrugRecord) : Option String :=
  (db.drugs.find? (fun d =>
    to_lower d.drug_name = to_lower r.name &&
    to_lower d.manufacturer = to_lower r.manufacturer)).map (fun d => d.id)

/-- Model of `DrugDatabaseSeeder._find_existing_drug`: try the `set_id` probe when
the record has a truthy `set_id`, else fall back to the
name+manufacturer lookup. -/
def find_existing_drug (db : DB) (r : DrugRecord) : Option String :=
  let bySet :=
    match r.set_id with
    | some sv => if sv.truthy then find_by_set_id db (pyToString sv) else none
    | none => none
  match bySet with
  | some i => some i
  | none => find_by_name_manufacturer db r

/-- Model of `DrugDatabaseSeeder._insert_drug`. -/
def insert_drug (db : DB) (r : DrugRecord) : String × DB :=
  let (drug_id, db1) := gen_id db
  (drug_id,
    { db1 with drugs := db1.drugs ++ [{
        id := drug_id
        drug_name := r.name
        set_id := r.set_id
        slug := r.slug
        labeler := r.manufacturer
        name := r.name
        generic_name := r.generic_name
        brand_name := r.brand_name
        manufacturer := r.manufacturer
        dosage_form := r.dosage_form
        strength := r.strength
        route := r.route
        ndc := r.ndc
        fda_application_number := r.fda_application_number
        approval_date := r.approval_date }] })

/-- Model of `DrugDatabaseSeeder._insert_drug_label`. -/
def insert_drug_label (db : DB) (drug_id : String) (r : DrugRecord) : DB :=
  let (label_id, db1) := gen_id db
  { db1 with labels := db1.labels ++ [{
      id := label_id
      drug_id := drug_id
      generic_name := r.generic_name
      labeler_name := r.manufacturer
      product_type := "HUMAN PRESCRIPTION DRUG LABEL"
      title := (r.brand_name.filter (fun b => !b.isEmpty)).getD r.name
      indications_and_usage := r.indications
      dosage_and_administration := r.dosage_and_administration
      contraindications := r.contraindications
      warnings_and_precautions := r.warnings
      adverse_reactions := r.adverse_reactions
      clinical_pharmacology := r.clinical_pharmacology
      how_supplied := r.how_supplied
      mechanism_of_action := r.mechanism_of_action
      indications := r.indications
      warnings := r.warnings
      precautions := r.precautions
      pharmacokinetics := r.pharmacokinetics }] }

/-- Model of `DrugDatabaseSeeder._update_drug`: overwrite the drug row, then
update the paired label row in place, or insert it when missing. -/
def update_drug (db : DB) (drug_id : String) (r : DrugRecord) : DB :=
  let db1 := { db with drugs := db.drugs.map (fun (d : DrugRow) =>
    if d.id = drug_id then
      { d with
        drug_name := r.name
        set_id := r.set_id
        slug := r.slug
        labeler := r.manufacturer
        name := r.name
        generic_name := r.generic_name
        brand_name := r.brand_name
        manufacturer := r.manufacturer
        dosage_form := r.dosage_form
        strength := r.strength
        route := r.route
        ndc := r.ndc
        fda_application_number := r.fda_application_number
        approval_date := r.approval_date }
    else d) }
  if db1.labels.any (fun dl => dl.drug_id = drug_id) then
    { db1 with labels := db1.labels.map (fun (dl : LabelRow) =>
      if dl.drug_id = drug_id then
        { dl with
          generic_name := r.generic_name
          labeler_name := r.manufacturer
          title := (r.brand_name.filter (fun b => !b.isEmpty)).getD r.name
          indications_and_usage := r.indications
          dosage_and_administration := r.dosage_and_administration
          contraindications := r.contraindications
          warnings_and_precautions := r.warnings
          adverse_reactions := r.adverse_reactions
          clinical_pharmacology := r.clinical_pharmacology
          how_supplied := r.how_supplied
          mechanism_of_action := r.mechanism_of_action
          indications := r.indications
          warnings := r.warnings
          precautions := r.precautions
          pharmacokinetics := r.pharmacokinetics }
      else dl) }
  else insert_drug_label db1 drug_id r

/-- Model of `DrugDatabaseSeeder._process_single_drug` under the storage fault
model `fails`: a marked record's insert/update statement raises a
storage error.  The returned flag is `true` when the record raised; in
that case the per-record handler of `_process_single_drug` has already
counted one error before re-raising. -/
def process_single_drug (fails : DrugRecord → Bool) (db : DB) (stats : Stats)
    (r : DrugRecord) : Bool × DB × Stats :=
  if !validate_record r then
    (false, db, { stats with skipped := stats.skipped + 1 })
  else
    match find_existing_drug db r with
    | some drug_id =>
      if fails r then (true, db, { stats with errors := stats.errors + 1 })
      else (false, update_drug db drug_id r, { stats with updated := stats.updated + 1 })
    | none =>
      if fails r then (true, db, { stats with errors := stats.errors + 1 })
      else
        let (drug_id, db1) := insert_drug db r
        (false, insert_drug_label db1 drug_id r,
          { stats with inserted := stats.inserted + 1 })

/-- One iteration of the batch loop of `seed_drugs_batch`: a raising
record is caught, counted as an error again, and processing continues;
a non-raising record counts as processed and successful. -/
def batch_step (fails : DrugRecord → Bool) (acc : DB × Stats × Nat) (r : DrugRecord) :
    DB × Stats × Nat :=
  match process_single_drug fails acc.1 acc.2.1 r with
  | (true, db1, s1) => (db1, { s1 with errors := s1.errors + 1 }, acc.2.2)
  | (false, db1, s1) => (db1, { s1 with processed := s1.processed + 1 }, acc.2.2 + 1)

/-- Model of `DrugDatabaseSeeder.seed_drugs_batch`: an empty batch reports
success; otherwise the per-record loop runs, and the transaction is
committed when at least one record succeeded, rolled back (restoring the
database but keeping the statistics) when none did. -/
def seed_drugs_batch (fails : DrugRecord → Bool) (st : DB × Stats)
    (records : List DrugRecord) : (DB × Stats) × Bool :=
  if records.isEmpty then (st, true)
  else
    let res := records.foldl (batch_step fails) (st.1, st.2, 0)
    if 0 < res.2.2 then ((res.1, res.2.1), true)
    else ((st.1, res.2.1), false)

/-- A run of the loader: a fresh seeder processes a sequence of batches. -/
def seed_run (fails : DrugRecord → Bool) (batches : List (List DrugRecord)) : DB × Stats :=
  batches.foldl (fun st b => (seed_drugs_batch fails st b).1) (DB.empty, Stats.init)

/-- Model of `DrugLabelParser._is_valid_drug_record`: the three required top-level
fields must be present and truthy, the label must be a mapping, and at
least one of the four clinical-content fields must be truthy. -/
def is_valid_drug_record (fields : List (String × JVal)) : Bool :=
  if ["drugName", "labeler", "label"].all (fun f =>
      match fields.lookup f with
      | some v => v.truthy
      | none => false) then
    match (fields.lookup "label").getD (.obj []) with
    | .obj lv =>
      ["indicationsAndUsage", "dosageAndAdministration",
       "warningsAndPrecautions", "adverseReactions"].any (fun f =>
        match lv.lookup f with
        | some v => v.truthy
        | none => false)
    | .str _ => false
  else false

/-- Model of `DrugLabelParser.parse_drugs`: stream the documents, yielding those
admitted by `_is_valid_drug_record` and skipping the rest. -/
def parse_drugs (docs : List (List (String × JVal))) : List (List (String × JVal)) :=
  docs.filter is_valid_drug_record

/-! Concrete fixtures and claim-side predicates used by the theorems. -/

/-- A normalized record with the given identity fields and all optional
fields absent (the defaulted pharmaceutical fields carry their
sentinels). -/
def mk_record (name manufacturer indications : String) (set_id : Option JVal) : DrugRecord :=
  { name := name, generic_name := none, brand_name := none, manufacturer := manufacturer,
    dosage_form := "Unknown", strength := "Not specified", route := "Unknown",
    ndc := none, fda_application_number := none, approval_date := none,
    indications := indications, contraindications := none, warnings := none,
    precautions := none, adverse_reactions := none, dosage_and_administration := none,
    how_supplied := none, clinical_pharmacology := none, mechanism_of_action := none,
    pharmacokinetics := none, set_id := set_id, slug := none }

/-- First record of the three-record batch fixtures. -/
def recA : DrugRecord := mk_record "Drug A" "M" "ind" none

/-- Second record of the three-record batch fixtures. -/
def recB : DrugRecord := mk_record "Drug B" "M" "ind" none

/-- Third record of the three-record batch fixtures. -/
def recC : DrugRecord := mk_record "Drug C" "M" "ind" none

/-- A record carrying the external dedup key `set_id = "S-1"`. -/
def recS : DrugRecord := mk_record "Emgality" "Lilly" "ind" (some (.str "S-1"))

/-- State after loading `[recS]` once into an empty database. -/
def seed_once : DB × Stats :=
  (seed_drugs_batch (fun _ => false) (DB.empty, Stats.init) [recS]).1

/-- State after loading `[recS]` a second time. -/
def seed_twice : DB × Stats :=
  (seed_drugs_batch (fun _ => false) seed_once [recS]).1

/-- The statistics counters satisfy the loader's bookkeeping invariant:
every processed record was counted as inserted, updated or skipped. -/
def stats_ok (s : Stats) : Prop :=
  s.processed = s.inserted + s.updated + s.skipped

/-- All values of a field list are strings (Python documents whose label
fields hold plain markup strings, the shape every admitted source
document has). -/
def str_vals (l : List (String × JVal)) : Prop :=
  ∀ p ∈ l, ∃ s, p.2 = JVal.str s

/-- The label value of a raw document, when present, is a mapping whose
values are strings. -/
def label_ok (rf : List (String × JVal)) : Prop :=
  match rf.lookup "label" with
  | none => True
  | some (.obj lv) => str_vals lv
  | some (.str _) => False

/-- The admission condition of the spec for the streaming parser: truthy
identity and manufacturer fields and a mapping label with at least one
truthy clinical-content field. -/
def admitted (d : List (String × JVal)) : Prop :=
  (∃ v, d.lookup "drugName" = some v ∧ v.truthy = true) ∧
  (∃ v, d.lookup "labeler" = some v ∧ v.truthy = true) ∧
  (∃ lv, d.lookup "label" = some (JVal.obj lv) ∧
    ∃ f ∈ ["indicationsAndUsage", "dosageAndAdministration",
           "warningsAndPrecautions", "adverseReactions"],
      ∃ v, lv.lookup f = some v ∧ v.truthy = true)

/-- The dash reformatting `s[0:4]-s[4:6]-s[6:8]` applied by
`_extract_approval_date` to an 8-character value. -/
def dashed (s : String) : String :=
  String.mk (s.toList.take 4 ++ '-' :: ((s.toList.drop 4).take 2) ++ '-' ::
    ((s.toList.drop 6).take 2))

/-- A document whose drug name is 256 characters long. -/
def long_name_doc : JVal :=
  .obj [("drugName", .str (String.mk (List.replicate 256 'a'))),
        ("labeler", .str "X"),
        ("label", .obj [("indicationsAndUsage", .str "y")])]

/-- The fields of a document whose `label` value is a plain string. -/
def label_str_fields : List (String × JVal) :=
  [("drugName", .str "X"), ("labeler", .str "M"), ("label", .str "oops")]

/-- A record failing the loader validation (empty name). -/
def bad_rec : DrugRecord := mk_record "" "M" "ind" none

/-- The spec scenario document with an empty `drugName`. -/
def empty_name_doc : JVal :=
  .obj [("drugName", .str ""), ("labeler", .str "X"),
        ("label", .obj [("indicationsAndUsage", .str "<p>y</p>")])]

/-- The spec scenario document resolving its name through the `name`
fallback. -/
def alt_name_doc : JVal :=
  .obj [("name", .str "Alt Drug"), ("labeler", .str "X"),
        ("label", .obj [("indicationsAndUsage", .str "<p>y</p>")])]

/-- A well-formed document transformed successfully. -/
def simple_doc : JVal :=
  .obj [("drugName", .str "Drug D"), ("labeler", .str "M"),
        ("label", .obj [("indicationsAndUsage", .str "y")])]

end DrugPipeline

namespace DrugPipeline

/-! Theorems -/

/-- C1.  For the batch `[recA, recB, recC]` in which exactly the second
record raises a storage error, `seed_drugs_batch` reports success and
`processed = 2`, but the errors counter ends at `2`, not `1`: the storage
error is counted once by the per-record handler of
`_process_single_drug` (which then re-raises) and once more by the batch
loop's handler, so each storage error increments `errors` by two. -/
theorem seed_batch_storage_error_double_count :
    (seed_drugs_batch (fun r => r.name = "Drug B") (DB.empty, Stats.init)
      [recA, recB, recC]).2 = true ∧
    ((seed_drugs_batch (fun r => r.name = "Drug B") (DB.empty, Stats.init)
      [recA, recB, recC]).1.2) =
      { processed := 2, inserted := 2, updated := 0, skipped := 0, errors := 2 } :=
  ⟨rfl, rfl⟩

/-- C3.  For a batch of three records that all raise storage errors,
`seed_drugs_batch` rolls the transaction back (the database is restored
to its prior state) and reports failure, and the error counts recorded
before the rollback are retained — but they amount to `6`, not `3`,
because each storage error is double-counted (see the per-record and
batch-level handlers). -/
theorem seed_batch_all_fail_rollback_double_count :
    (seed_drugs_batch (fun _ => true) (DB.empty, Stats.init) [recA, recB, recC]).2 = false ∧
    ((seed_drugs_batch (fun _ => true) (DB.empty, Stats.init) [recA, recB, recC]).1.1).drugs = [] ∧
    ((seed_drugs_batch (fun _ => true) (DB.empty, Stats.init) [recA, recB, recC]).1.1).labels = [] ∧
    ((seed_drugs_batch (fun _ => true) (DB.empty, Stats.init) [recA, recB, recC]).1.2) =
      { processed := 0, inserted := 0, updated := 0, skipped := 0, errors := 6 } :=
  ⟨rfl, rfl, rfl, rfl⟩

/-- C2.  Loading `[recS]` (which carries `set_id = "S-1"`) twice leaves a
single drug row — but the second pass does **not** find it through the
`set_id` probe: the probe compares the parameter against the generated
`drug_labels.id` key (`"#1"` here), so it finds nothing even though the
drug row stores `set_id = "S-1"`, and the match is made by the
case-insensitive name+manufacturer fallback instead. -/
theorem seed_twice_set_id_probe_never_matches :
    (seed_once.1.drugs.map (fun d => d.set_id)) = [some (JVal.str "S-1")] ∧
    (seed_once.1.labels.map (fun dl => dl.id)) = ["#1"] ∧
    find_by_set_id seed_once.1 "S-1" = none ∧
    find_existing_drug seed_once.1 recS = some "#0" ∧
    seed_twice.1.drugs.length = 1 ∧
    seed_twice.1.labels.length = 1 ∧
    seed_twice.2 = { processed := 2, inserted := 1, updated := 1, skipped := 0, errors := 0 } :=
  ⟨rfl, rfl, rfl, rfl, rfl, rfl, rfl⟩

/-- C7.  On the spec's example text the strength pattern captures only
`"120 mg"`: the optional denominator of the first pattern requires a
digit after the slash, so the `"/mL"` suffix is not part of the match. -/
theorem parse_strength_slash_unit_dropped :
    parse_strength_from_text "Injection: 120 mg/mL in a single-dose prefilled pen" =
      some "120 mg" ∧ "120 mg" ≠ "120 mg/mL" :=
  ⟨rfl, by decide⟩

/-- Characters surviving `collapse_aux` are either the replacement space
or non-whitespace characters of the input. -/
theorem mem_collapse_aux {c : Char} :
    ∀ (b : Bool) (l : List Char), c ∈ collapse_aux b l → c = ' ' ∨ is_space c = false := by
  intro b l
  induction l generalizing b with
  | nil => intro h; simp [collapse_aux] at h
  | cons x xs ih =>
    intro h
    by_cases hx : is_space x
    · rw [collapse_aux, if_pos hx] at h
      cases b with
      | true => exact ih true h
      | false =>
        rcases List.mem_cons.mp h with h1 | h1
        · exact Or.inl h1
        · exact ih true h1
    · rw [collapse_aux, if_neg hx] at h
      rcases List.mem_cons.mp h with h1 | h1
      · subst h1; exact Or.inr (by simpa using hx)
      · exact ih false h1

/-- No newline survives the whitespace collapse. -/
theorem collapse_ws_no_newline {l : List Char} : '\n' ∉ collapse_ws l := by
  intro h
  rcases mem_collapse_aux false l h with h1 | h1
  · exact absurd h1 (by decide)
  · exact absurd h1 (by decide)

/-- Dropping a whitespace run only removes characters. -/
theorem mem_of_mem_dropWhile_space {c : Char} :
    ∀ l : List Char, c ∈ l.dropWhile is_space → c ∈ l := by
  intro l
  induction l with
  | nil => simp
  | cons x xs ih =>
    intro h
    by_cases hx : is_space x
    · rw [List.dropWhile_cons, if_pos hx] at h
      exact List.mem_cons_of_mem x (ih h)
    · rw [List.dropWhile_cons, if_neg hx] at h
      exact h

/-- Stripping only removes characters. -/
theorem mem_of_mem_strip_chars {c : Char} {l : List Char} :
    c ∈ strip_chars l → c ∈ l := by
  intro h
  unfold strip_chars at h
  rw [List.mem_reverse] at h
  have h2 := mem_of_mem_dropWhile_space _ h
  rw [List.mem_reverse] at h2
  exact mem_of_mem_dropWhile_space _ h2

/-- Fact: `_clean_text` never returns text containing a newline. -/
theorem clean_text_no_newline {o : Option JVal} {s : String} :
    clean_text o = some s → '\n' ∉ s.toList := by
  intro h
  unfold clean_text at h
  split at h
  · exact absurd h (by simp)
  · split at h
    · split at h
      · exact absurd h (by simp)
      · injection h with h1
        subst h1
        intro hm
        exact collapse_ws_no_newline (mem_of_mem_strip_chars hm)
    · exact absurd h (by simp)

/-- Fact: `_clean_html_content` never returns text containing a newline. -/
theorem clean_html_content_no_newline {o : Option JVal} {s : String} :
    clean_html_content o = some s → '\n' ∉ s.toList := by
  intro h
  unfold clean_html_content at h
  split at h
  · exact absurd h (by simp)
  · split at h
    · split at h
      · split at h
        · exact absurd h (by simp)
        · injection h with h1
          subst h1
          intro hm
          exact collapse_ws_no_newline (mem_of_mem_strip_chars hm)
      · exact clean_text_no_newline h
    · exact absurd h (by simp)

/-- Splitting a list that avoids the separator is the identity. -/
theorem split_on_char_of_not_mem {sep : Char} :
    ∀ l : List Char, (∀ c ∈ l, c ≠ sep) → split_on_char sep l = [l] := by
  intro l
  induction l with
  | nil => intro _; rfl
  | cons c cs ih =>
    intro h
    have htail := ih (fun x hx => h x (List.mem_cons_of_mem c hx))
    have hc := h c (List.mem_cons_self c cs)
    simp [split_on_char, htail, hc]

/-- A single-line scan that starts outside the section collects nothing:
either the line opens the section (and is skipped) or it is ignored. -/
theorem section_scan_single (hk : String) (stops : List String) (ln : List Char) :
    section_scan hk stops [ln] false [] = [] := by
  rw [section_scan]
  split
  · rfl
  · rfl

/-- Fact: `jget_d` on a mapping is an ordinary defaulted lookup. -/
theorem jget_d_obj (lv : List (String × JVal)) (k : String) (d : JVal) :
    jget_d (.obj lv) k d = .ok ((lv.lookup k).getD d) := rfl

/-- The section scanner is fed the cleaned narrative, which contains no
newline, so it always sees a single line and collects nothing. -/
theorem section_scan_of_cleaned (cp : JVal) (hk : String) (stops : List String) :
    section_scan hk stops
      (split_on_char '\n' ((clean_html_content (some cp)).getD "").toList) false [] = [] := by
  have hnl : ∀ c ∈ ((clean_html_content (some cp)).getD "").toList, c ≠ '\n' := by
    cases hct : clean_html_content (some cp) with
    | none => simp
    | some s =>
      intro c hc hceq
      subst hceq
      exact clean_html_content_no_newline hct (by simpa using hc)
  rw [split_on_char_of_not_mem _ hnl]
  exact section_scan_single _ _ _

/-- C5.  The derived section extraction is dead code on every label: the
HTML/whitespace cleanup replaces every newline by a space before
`_extract_mechanism_of_action`/`_extract_pharmacokinetics` split the
text on newlines, so the scanner always sees a single line, never
collects any content line, and both functions return `None` for every
label mapping — the heading/stop-keyword collection described by the
claim can never produce a value. -/
theorem mechanism_and_pk_extraction_always_none (lv : List (String × JVal)) :
    extract_mechanism_of_action (.obj lv) = .ok none ∧
    extract_pharmacokinetics (.obj lv) = .ok none := by
  constructor
  · unfold extract_mechanism_of_action
    rw [jget_d_obj]
    by_cases hcp : ((lv.lookup "clinicalPharmacology").getD (.str "")).truthy
    · simp only [hcp, if_true]
      rw [section_scan_of_cleaned]
      rfl
    · simp only [hcp]
      rfl
  · unfold extract_pharmacokinetics
    rw [jget_d_obj]
    by_cases hcp : ((lv.lookup "clinicalPharmacology").getD (.str "")).truthy
    · simp only [hcp, if_true]
      rw [section_scan_of_cleaned]
      rfl
    · simp only [hcp]
      rfl

/-- C6 counterexample.  The claim says that every source value that is
not an 8-digit date yields no date; the non-digit 8-character value
`"abcdefgh"` is nevertheless reformatted to `"abcd-ef-gh"`. -/
theorem approval_date_non_digit_counterexample :
    extract_approval_date (.obj [("effectiveTime", .str "abcdefgh")]) =
      .ok (some "abcd-ef-gh") ∧
    "abcdefgh".toList.all Char.isDigit = false :=
  ⟨rfl, by decide⟩

/-- C6 amended.  `_extract_approval_date` checks only that the `str()`
form of the value has exactly 8 characters: every 8-character value is
reformatted to `s[0:4]-s[4:6]-s[6:8]` (so `"20210615"` becomes
`"2021-06-15"`), every value of any other length yields no date, and the
digits are never validated. -/
theorem approval_date_eight_char_rule :
    (∀ s : String, extract_approval_date (.obj [("effectiveTime", .str s)]) =
      .ok (if s.length = 8 then some (dashed s) else none)) ∧
    extract_approval_date (.obj [("effectiveTime", .str "20210615")]) =
      .ok (some "2021-06-15") ∧
    extract_approval_date (.obj []) = .ok none := by
  refine ⟨?_, rfl, rfl⟩
  intro s
  unfold extract_approval_date
  have hj : jget (.obj [("effectiveTime", .str s)]) "effectiveTime" = .ok (some (.str s)) := rfl
  rw [hj]
  have hps : pyToString (.str s) = s := by simp [pyToString]
  by_cases h8 : s.length = 8
  · have hne : s ≠ "" := by
      intro he
      rw [he] at h8
      simp at h8
    have hie : s.isEmpty = false := by
      rcases Bool.eq_false_or_eq_true s.isEmpty with h | h
      · exact absurd (String.isEmpty_iff s |>.mp h) hne
      · exact h
    simp [JVal.truthy, hps, hie, h8, dashed]
  · simp [JVal.truthy, hps, h8]

set_option maxRecDepth 40000 in
/-- C4 counterexample.  The claim bounds the name of every transformed
record by 255 characters; a document whose `drugName` has 256 characters
is transformed successfully and keeps all 256 characters. -/
theorem transform_name_length_counterexample :
    ((transform long_name_doc).1.map (fun r => r.name.length)) = some 256 ∧
    255 < 256 :=
  ⟨rfl, by decide⟩

/-- C8 counterexample.  The claim says `transform` rejects exactly the
non-mappings and the documents without a resolvable name; this document
is a mapping whose name resolves to `"X"` through the primary `drugName`
key, yet `transform` rejects it because its `label` value is a plain
string and the narrative extraction raises (the exception is caught and
the record dropped). -/
theorem transform_label_string_counterexample :
    (transform (.obj label_str_fields)).1 = none ∧
    safe_extract_drug_name label_str_fields (.str "oops") = .ok (some "X", []) :=
  ⟨rfl, rfl⟩

/-- One iteration of the batch loop preserves the statistics partition:
a skipped, inserted or updated record is also counted as processed,
while a raising record touches only `errors`. -/
theorem batch_step_stats_ok (fails : DrugRecord → Bool) (acc : DB × Stats × Nat)
    (r : DrugRecord) (h : stats_ok acc.2.1) :
    stats_ok ((batch_step fails acc r).2.1) := by
  obtain ⟨db, s, n⟩ := acc
  simp only [stats_ok] at h
  by_cases hv : validate_record r
  · cases hf : find_existing_drug db r with
    | some drug_id =>
      by_cases hfail : fails r
      · simp [batch_step, process_single_drug, hv, hf, hfail, stats_ok]
        omega
      · simp [batch_step, process_single_drug, hv, hf, hfail, stats_ok]
        omega
    | none =>
      by_cases hfail : fails r
      · simp [batch_step, process_single_drug, hv, hf, hfail, stats_ok]
        omega
      · simp [batch_step, process_single_drug, hv, hf, hfail, stats_ok,
          insert_drug, insert_drug_label, gen_id]
        omega
  · simp [batch_step, process_single_drug, hv, stats_ok]
    omega

/-- The statistics partition is preserved across the whole batch loop. -/
theorem foldl_batch_step_stats_ok (fails : DrugRecord → Bool) :
    ∀ (records : List DrugRecord) (acc : DB × Stats × Nat), stats_ok acc.2.1 →
    stats_ok ((records.foldl (batch_step fails) acc)).2.1 := by
  intro records
  induction records with
  | nil => intro acc h; exact h
  | cons r rs ih =>
    intro acc h
    rw [List.foldl_cons]
    exact ih _ (batch_step_stats_ok fails acc r h)

/-- Fact: `seed_drugs_batch` preserves the statistics partition (the rollback
path restores only the database, not the counters). -/
theorem seed_drugs_batch_stats_ok (fails : DrugRecord → Bool) (st : DB × Stats)
    (records : List DrugRecord) (h : stats_ok st.2) :
    stats_ok ((seed_drugs_batch fails st records).1.2) := by
  unfold seed_drugs_batch
  split
  · exact h
  · have hfold := foldl_batch_step_stats_ok fails records (st.1, st.2, 0) h
    by_cases h0 : 0 < (List.foldl (batch_step fails) (st.1, st.2, 0) records).2.2
    · simpa [h0] using hfold
    · simpa [h0] using hfold

/-- A batch of records that all fail validation counts one success per
record: validation-skipped records are successes for the batch loop. -/
theorem foldl_batch_step_all_invalid (fails : DrugRecord → Bool) :
    ∀ (records : List DrugRecord) (db : DB) (s : Stats) (n : Nat),
    (∀ r ∈ records, validate_record r = false) →
    (records.foldl (batch_step fails) (db, s, n)).2.2 = n + records.length := by
  intro records
  induction records with
  | nil => intro db s n _; simp
  | cons r rs ih =>
    intro db s n h
    have hr : validate_record r = false := h r (List.mem_cons_self r rs)
    rw [List.foldl_cons]
    have hstep : batch_step fails (db, s, n) r =
        (db, { s with skipped := s.skipped + 1, processed := s.processed + 1 }, n + 1) := by
      simp [batch_step, process_single_drug, hr]
    rw [hstep, ih db _ (n + 1) (fun x hx => h x (List.mem_cons_of_mem r hx))]
    simp
    omega

/-- C10.  Starting from a fresh seeder, after any sequence of batch
calls the counters satisfy `processed = inserted + updated + skipped`
(a validation-skipped record is counted as processed too); and a
non-empty batch consisting only of validation-failed records still
counts every record as successful, so the batch commits and reports
success. -/
theorem seeder_stats_partition_and_invalid_batch_success :
    (∀ (fails : DrugRecord → Bool) (batches : List (List DrugRecord)),
      (seed_run fails batches).2.processed =
        (seed_run fails batches).2.inserted + (seed_run fails batches).2.updated +
        (seed_run fails batches).2.skipped) ∧
    (∀ (fails : DrugRecord → Bool) (st : DB × Stats) (records : List DrugRecord),
      records ≠ [] → (∀ r ∈ records, validate_record r = false) →
      (seed_drugs_batch fails st records).2 = true) := by
  constructor
  · intro fails batches
    have h : ∀ (bs : List (List DrugRecord)) (st : DB × Stats), stats_ok st.2 →
        stats_ok ((bs.foldl (fun st b => (seed_drugs_batch fails st b).1) st)).2 := by
      intro bs
      induction bs with
      | nil => intro st h; exact h
      | cons b rest ih =>
        intro st hst
        rw [List.foldl_cons]
        exact ih _ (seed_drugs_batch_stats_ok fails st b hst)
    exact h batches (DB.empty, Stats.init) rfl
  · intro fails st records hne h
    unfold seed_drugs_batch
    rw [if_neg (by simpa using hne)]
    have hn := foldl_batch_step_all_invalid fails records st.1 st.2 0 h
    have hpos : 0 < (records.foldl (batch_step fails) (st.1, st.2, 0)).2.2 := by
      rw [hn]
      simpa [Nat.pos_iff_ne_zero] using (List.length_pos.mpr hne)
    rw [if_pos hpos]

/-- C10 witness: the partition equation for a concrete run, and a
concrete all-invalid batch committing successfully. -/
theorem seeder_stats_partition_witness :
    ((seed_run (fun _ => false) [[recA, bad_rec]]).2.processed =
      (seed_run (fun _ => false) [[recA, bad_rec]]).2.inserted +
      (seed_run (fun _ => false) [[recA, bad_rec]]).2.updated +
      (seed_run (fun _ => false) [[recA, bad_rec]]).2.skipped) ∧
    (seed_drugs_batch (fun _ => false) (DB.empty, Stats.init) [bad_rec]).2 = true := by
  refine ⟨seeder_stats_partition_and_invalid_batch_success.1 _ _,
    seeder_stats_partition_and_invalid_batch_success.2 _ _ _ (by simp) ?_⟩
  intro r hr
  rw [List.mem_singleton] at hr
  subst hr
  rfl

/-- The truthy-lookup pattern of `_is_valid_drug_record` as an
existential. -/
theorem lookup_truthy_iff (l : List (String × JVal)) (f : String) :
    (match l.lookup f with
     | some v => v.truthy
     | none => false) = true ↔ ∃ v, l.lookup f = some v ∧ v.truthy = true := by
  cases h : l.lookup f with
  | none => simp [h]
  | some v => simp [h]

/-- The admission filter accepts exactly the documents of the spec's
admission condition. -/
theorem is_valid_drug_record_iff (d : List (String × JVal)) :
    is_valid_drug_record d = true ↔ admitted d := by
  constructor
  · intro h
    unfold is_valid_drug_record at h
    split at h
    case isFalse => exact absurd h (by simp)
    case isTrue hall =>
      simp only [List.all_cons, List.all_nil, Bool.and_eq_true, Bool.and_true] at hall
      obtain ⟨h1, h2, h3⟩ := hall
      obtain ⟨v1, hv1, ht1⟩ := (lookup_truthy_iff d "drugName").mp h1
      obtain ⟨v2, hv2, ht2⟩ := (lookup_truthy_iff d "labeler").mp h2
      obtain ⟨v3, hv3, ht3⟩ := (lookup_truthy_iff d "label").mp h3
      refine ⟨⟨v1, hv1, ht1⟩, ⟨v2, hv2, ht2⟩, ?_⟩
      rw [hv3] at h
      cases v3 with
      | str s => exact absurd h (by simp)
      | obj lv =>
        simp only [Option.getD_some] at h
        rw [List.any_eq_true] at h
        obtain ⟨f, hf, hmatch⟩ := h
        obtain ⟨v, hv, ht⟩ := (lookup_truthy_iff lv f).mp hmatch
        exact ⟨lv, hv3, f, hf, v, hv, ht⟩
  · intro h
    obtain ⟨⟨v1, hv1, ht1⟩, ⟨v2, hv2, ht2⟩, ⟨lv, hv3, f, hf, v, hv, ht⟩⟩ := h
    unfold is_valid_drug_record
    have hlv_ne : lv ≠ [] := by
      intro he
      rw [he] at hv
      simp [List.lookup] at hv
    have hall : ["drugName", "labeler", "label"].all (fun f =>
        match d.lookup f with
        | some v => v.truthy
        | none => false) = true := by
      simp only [List.all_cons, List.all_nil, Bool.and_eq_true, Bool.and_true]
      refine ⟨(lookup_truthy_iff d "drugName").mpr ⟨v1, hv1, ht1⟩,
        (lookup_truthy_iff d "labeler").mpr ⟨v2, hv2, ht2⟩,
        (lookup_truthy_iff d "label").mpr ⟨.obj lv, hv3, ?_⟩⟩
      simp [JVal.truthy, hlv_ne]
    rw [if_pos hall, hv3]
    simp only [Option.getD_some]
    rw [List.any_eq_true]
    exact ⟨f, hf, (lookup_truthy_iff lv f).mpr ⟨v, hv, ht⟩⟩

/-- C9.  The streaming parser yields exactly the documents with truthy
`drugName` and `labeler` fields and a mapping `label` containing at
least one truthy clinical-content field among `indicationsAndUsage`,
`dosageAndAdministration`, `warningsAndPrecautions` and
`adverseReactions`; all other documents are skipped. -/
theorem parse_drugs_admission (docs : List (List (String × JVal)))
    (d : List (String × JVal)) :
    d ∈ parse_drugs docs ↔ d ∈ docs ∧ admitted d := by
  unfold parse_drugs
  rw [List.mem_filter]
  exact and_congr_right (fun _ => is_valid_drug_record_iff d)

/-- Fact: `_clean_text` never produces the empty string. -/
theorem clean_text_ne_empty {o : Option JVal} {s : String} :
    clean_text o = some s → s ≠ "" := by
  intro h
  unfold clean_text at h
  split at h
  · exact absurd h (by simp)
  · split at h
    · split at h
      · exact absurd h (by simp)
      · injection h with h1
        subst h1
        intro he
        rename_i hne
        exact hne ((String.isEmpty_iff _).mpr he)
    · exact absurd h (by simp)

/-- A resolved drug name is never empty: every branch of the fallback
chain returns a `_clean_text` result. -/
theorem safe_extract_drug_name_ne_empty {rf : List (String × JVal)} {label : JVal}
    {n : String} {iss : List Issue} :
    safe_extract_drug_name rf label = .ok (some n, iss) → n ≠ "" := by
  intro h
  unfold safe_extract_drug_name at h
  split at h
  · simp only [Except.ok.injEq, Prod.mk.injEq, Option.some.injEq] at h
    obtain ⟨h1, -⟩ := h
    subst h1
    exact clean_text_ne_empty (by assumption)
  · split at h
    · simp only [Except.ok.injEq, Prod.mk.injEq, Option.some.injEq] at h
      obtain ⟨h1, -⟩ := h
      subst h1
      exact clean_text_ne_empty (by assumption)
    · split at h
      · simp only [Except.ok.injEq, Prod.mk.injEq, Option.some.injEq] at h
        obtain ⟨h1, -⟩ := h
        subst h1
        exact clean_text_ne_empty (by assumption)
      · split at h
        · simp only [Except.ok.injEq, Prod.mk.injEq, Option.some.injEq] at h
          obtain ⟨h1, -⟩ := h
          subst h1
          exact clean_text_ne_empty (by assumption)
        · split at h
          · exact Except.noConfusion h
          · split at h
            · simp only [Except.ok.injEq, Prod.mk.injEq, Option.some.injEq] at h
              obtain ⟨h1, -⟩ := h
              subst h1
              exact clean_text_ne_empty (by assumption)
            · exact absurd h (by simp)

/-- A resolved manufacturer is never empty: every branch returns a
`_clean_text` result or the non-empty default sentinel. -/
theorem safe_extract_manufacturer_ne_empty {rf : List (String × JVal)} {label : JVal}
    {m : String} {iss : List Issue} :
    safe_extract_manufacturer rf label = .ok (m, iss) → m ≠ "" := by
  intro h
  unfold safe_extract_manufacturer at h
  split at h
  · simp only [Except.ok.injEq, Prod.mk.injEq] at h
    obtain ⟨h1, -⟩ := h
    subst h1
    exact clean_text_ne_empty (by assumption)
  · split at h
    · simp only [Except.ok.injEq, Prod.mk.injEq] at h
      obtain ⟨h1, -⟩ := h
      subst h1
      exact clean_text_ne_empty (by assumption)
    · split at h
      · simp only [Except.ok.injEq, Prod.mk.injEq] at h
        obtain ⟨h1, -⟩ := h
        subst h1
        exact clean_text_ne_empty (by assumption)
      · split at h
        · simp only [Except.ok.injEq, Prod.mk.injEq] at h
          obtain ⟨h1, -⟩ := h
          subst h1
          exact clean_text_ne_empty (by assumption)
        · split at h
          · exact Except.noConfusion h
          · split at h
            · simp only [Except.ok.injEq, Prod.mk.injEq] at h
              obtain ⟨h1, -⟩ := h
              subst h1
              exact clean_text_ne_empty (by assumption)
            · simp only [Except.ok.injEq, Prod.mk.injEq] at h
              obtain ⟨h1, -⟩ := h
              subst h1
              decide

/-- Inversion of the extraction chain: a produced record's name and
manufacturer are exactly the values resolved by the two fallback
chains. -/
theorem transform_core_ok_fields {rf : List (String × JVal)} {label : JVal}
    {i0 : List Issue} {r : DrugRecord} {iss : List Issue} :
    transform_core rf label i0 = .ok (some r, iss) →
    (∃ i1, safe_extract_drug_name rf label = .ok (some r.name, i1)) ∧
    (∃ i2, safe_extract_manufacturer rf label = .ok (r.manufacturer, i2)) := by
  intro h
  unfold transform_core at h
  repeat' split at h
  any_goals exact Except.noConfusion h
  all_goals injection h with h1
  all_goals injection h1 with h2 h3
  any_goals exact Option.noConfusion h2
  injection h2 with h4
  subst h4
  exact ⟨⟨_, by assumption⟩, ⟨_, by assumption⟩⟩

/-- C4 amended.  A successfully transformed record always has a
non-empty name and manufacturer, but `transform` enforces no length
bound; the 255-character bound is enforced later, by the loader's
`_validate_record`, before a record is accepted for storage. -/
theorem transform_identity_nonempty :
    (∀ (raw : JVal) (r : DrugRecord) (iss : List Issue),
      transform raw = (some r, iss) → r.name ≠ "" ∧ r.manufacturer ≠ "") ∧
    (∀ r : DrugRecord, validate_record r = true →
      r.name.length ≤ 255 ∧ r.manufacturer.length ≤ 255) := by
  constructor
  · intro raw r iss h
    cases raw with
    | str s => simp [transform] at h
    | obj rf =>
      unfold transform at h
      dsimp only at h
      cases hE : transformE rf with
      | error e =>
        rw [hE] at h
        simp at h
      | ok p =>
        rw [hE] at h
        dsimp only at h
        subst h
        unfold transformE at hE
        obtain ⟨⟨i1, hname⟩, ⟨i2, hman⟩⟩ := transform_core_ok_fields hE
        exact ⟨safe_extract_drug_name_ne_empty hname,
          safe_extract_manufacturer_ne_empty hman⟩
  · intro r hv
    unfold validate_record at hv
    simp only [Bool.not_eq_eq_eq_not, Bool.not_true, Bool.or_eq_false_iff,
      decide_eq_false_iff_not, Nat.not_lt] at hv
    exact ⟨hv.1.2, hv.2⟩

/-- C4 witness: a concrete successful transformation has non-empty
identity fields, and a concrete valid record is within the bound. -/
theorem transform_identity_nonempty_witness :
    ((transform simple_doc).1.map
      (fun r => decide (r.name ≠ "" ∧ r.manufacturer ≠ ""))) = some true ∧
    recA.name.length ≤ 255 := by
  constructor
  · obtain ⟨r, iss, hr⟩ : ∃ r iss, transform simple_doc = (some r, iss) := ⟨_, _, rfl⟩
    have h := transform_identity_nonempty.1 simple_doc r iss hr
    rw [hr]
    simp [h.1, h.2]
  · exact (transform_identity_nonempty.2 recA rfl).1

/-- A lookup in a string-valued field list yields a string. -/
theorem lookup_str_vals {lv : List (String × JVal)} (h : str_vals lv) :
    ∀ {k : String} {v : JVal}, lv.lookup k = some v → ∃ s, v = JVal.str s := by
  induction lv with
  | nil => intro k v hv; simp [List.lookup] at hv
  | cons p t ih =>
    intro k v hv
    rw [List.lookup] at hv
    cases hk : k == p.1 with
    | true =>
      rw [hk] at hv
      injection hv with hv1
      subst hv1
      exact h p (List.mem_cons_self p t)
    | false =>
      rw [hk] at hv
      exact ih (fun q hq => h q (List.mem_cons_of_mem p hq)) hv

/-- The defaulted `title`/field lookup on a string-valued label is a
string. -/
theorem getD_str_of_str_vals {lv : List (String × JVal)} (h : str_vals lv) (k : String)
    (d : String) : ∃ s, (lv.lookup k).getD (.str d) = JVal.str s := by
  cases hk : lv.lookup k with
  | none => exact ⟨d, rfl⟩
  | some v =>
    obtain ⟨s, hs⟩ := lookup_str_vals h hk
    exact ⟨s, by rw [Option.getD_some, hs]⟩

/-- Fact: `field_text = clean or raw` never raises on a string value. -/
theorem field_text_or_raw_str (s : String) : ∃ t, field_text_or_raw (.str s) = .ok t := by
  unfold field_text_or_raw
  split
  · exact ⟨_, rfl⟩
  · exact ⟨s, rfl⟩

/-- The title fallback of `_extract_generic_name` never raises on a
string-valued label. -/
theorem extract_generic_from_title_ok {lv : List (String × JVal)} (h : str_vals lv) :
    ∃ x, extract_generic_from_title (.obj lv) = .ok x := by
  obtain ⟨ts, hts⟩ := getD_str_of_str_vals h "title" ""
  unfold extract_generic_from_title
  rw [jget_d_obj, hts]
  dsimp only [as_str]
  repeat' split
  all_goals exact ⟨_, rfl⟩

/-- Fact: `_extract_generic_name` never raises on a string-valued label. -/
theorem extract_generic_name_ok {lv : List (String × JVal)} (h : str_vals lv) :
    ∃ x, extract_generic_name (.obj lv) = .ok x := by
  unfold extract_generic_name
  rw [show jget (.obj lv) "genericName" = .ok (lv.lookup "genericName") from rfl]
  dsimp only
  cases hg : lv.lookup "genericName" with
  | none => exact extract_generic_from_title_ok h
  | some v =>
    dsimp only
    split
    · exact ⟨_, rfl⟩
    · exact extract_generic_from_title_ok h

/-- Fact: `_extract_brand_name` never raises on a string-valued label. -/
theorem extract_brand_name_ok {lv : List (String × JVal)} (h : str_vals lv)
    (dn : String) : ∃ x, extract_brand_name dn (.obj lv) = .ok x := by
  obtain ⟨ts, hts⟩ := getD_str_of_str_vals h "title" ""
  unfold extract_brand_name
  rw [jget_d_obj, hts]
  dsimp only [as_str]
  repeat' split
  all_goals exact ⟨_, rfl⟩

/-- The dosage-form alternative-field loop never raises on a
string-valued label. -/
theorem dosage_form_alt_ok {lv : List (String × JVal)} (h : str_vals lv) :
    ∀ fields, ∃ x, dosage_form_alt (.obj lv) fields = .ok x := by
  intro fields
  induction fields with
  | nil => exact ⟨_, rfl⟩
  | cons f fs ih =>
    obtain ⟨s, hs⟩ := getD_str_of_str_vals h f ""
    obtain ⟨t, ht⟩ := field_text_or_raw_str s
    unfold dosage_form_alt
    rw [jget_d_obj, hs]
    dsimp only
    split
    · rw [ht]
      dsimp only
      repeat' split
      any_goals exact ⟨_, rfl⟩
      exact ih
    · exact ih

/-- Fact: `_extract_dosage_form` never raises on a string-valued label. -/
theorem extract_dosage_form_ok {lv : List (String × JVal)} (h : str_vals lv) :
    ∃ x, extract_dosage_form (.obj lv) = .ok x := by
  unfold extract_dosage_form
  rw [jget_d_obj]
  dsimp only
  split
  · split
    · exact ⟨_, rfl⟩
    · exact dosage_form_alt_ok h _
  · exact dosage_form_alt_ok h _

/-- The strength alternative-field loop never raises on a string-valued
label. -/
theorem strength_alt_ok {lv : List (String × JVal)} (h : str_vals lv) :
    ∀ fields, ∃ x, strength_alt (.obj lv) fields = .ok x := by
  intro fields
  induction fields with
  | nil => exact ⟨_, rfl⟩
  | cons f fs ih =>
    obtain ⟨s, hs⟩ := getD_str_of_str_vals h f ""
    obtain ⟨t, ht⟩ := field_text_or_raw_str s
    unfold strength_alt
    rw [jget_d_obj, hs]
    dsimp only
    split
    · rw [ht]
      dsimp only
      split
      · exact ⟨_, rfl⟩
      · exact ih
    · exact ih

/-- Fact: `_extract_strength` never raises on a string-valued label. -/
theorem extract_strength_ok {lv : List (String × JVal)} (h : str_vals lv) :
    ∃ x, extract_strength (.obj lv) = .ok x := by
  unfold extract_strength
  rw [jget_d_obj]
  dsimp only
  split
  · split
    · exact ⟨_, rfl⟩
    · exact strength_alt_ok h _
  · exact strength_alt_ok h _

/-- The route alternative-field loop never raises on a string-valued
label. -/
theorem route_alt_ok {lv : List (String × JVal)} (h : str_vals lv) :
    ∀ fields, ∃ x, route_alt (.obj lv) fields = .ok x := by
  intro fields
  induction fields with
  | nil => exact ⟨_, rfl⟩
  | cons f fs ih =>
    obtain ⟨s, hs⟩ := getD_str_of_str_vals h f ""
    obtain ⟨t, ht⟩ := field_text_or_raw_str s
    unfold route_alt
    rw [jget_d_obj, hs]
    dsimp only
    split
    · rw [ht]
      dsimp only
      split
      · exact ⟨_, rfl⟩
      · exact ih
    · exact ih

/-- Fact: `_extract_route` never raises on a string-valued label. -/
theorem extract_route_ok {lv : List (String × JVal)} (h : str_vals lv) :
    ∃ x, extract_route (.obj lv) = .ok x := by
  unfold extract_route
  rw [jget_d_obj]
  dsimp only
  split
  · split
    · exact ⟨_, rfl⟩
    · exact route_alt_ok h _
  · exact route_alt_ok h _

/-- Fact: `_extract_ndc` never raises on a label mapping. -/
theorem extract_ndc_ok (lv : List (String × JVal)) :
    ∃ x, extract_ndc (.obj lv) = .ok x := by
  unfold extract_ndc
  rw [jget_d_obj]
  dsimp only
  split
  · exact ⟨_, rfl⟩
  · exact ⟨_, rfl⟩

/-- Fact: `_extract_approval_date` never raises on a label mapping. -/
theorem extract_approval_date_ok (lv : List (String × JVal)) :
    ∃ x, extract_approval_date (.obj lv) = .ok x := by
  unfold extract_approval_date
  rw [show jget (.obj lv) "effectiveTime" = .ok (lv.lookup "effectiveTime") from rfl]
  dsimp only
  repeat' split
  all_goals exact ⟨_, rfl⟩

/-- Fact: `_safe_extract_indications` never raises on a label mapping. -/
theorem safe_extract_indications_ok (lv : List (String × JVal)) :
    ∃ x, safe_extract_indications (.obj lv) = .ok x := by
  unfold safe_extract_indications
  rw [show jget (.obj lv) "indicationsAndUsage" = .ok (lv.lookup "indicationsAndUsage") from rfl,
    show jget (.obj lv) "indications" = .ok (lv.lookup "indications") from rfl,
    show jget (.obj lv) "usage" = .ok (lv.lookup "usage") from rfl,
    show jget (.obj lv) "indication" = .ok (lv.lookup "indication") from rfl]
  dsimp only
  repeat' split
  all_goals exact ⟨_, rfl⟩

/-- Fact: `_safe_extract_manufacturer` never raises on a label mapping. -/
theorem safe_extract_manufacturer_ok (rf lv : List (String × JVal)) :
    ∃ x, safe_extract_manufacturer rf (.obj lv) = .ok x := by
  unfold safe_extract_manufacturer
  rw [show jget (.obj lv) "labelerName" = .ok (lv.lookup "labelerName") from rfl]
  dsimp only
  repeat' split
  all_goals exact ⟨_, rfl⟩

/-- The mechanism scan never raises on a label mapping. -/
theorem extract_mechanism_of_action_ok (lv : List (String × JVal)) :
    ∃ x, extract_mechanism_of_action (.obj lv) = .ok x := by
  unfold extract_mechanism_of_action
  rw [jget_d_obj]
  dsimp only
  split
  · exact ⟨_, rfl⟩
  · exact ⟨_, rfl⟩

/-- The pharmacokinetics scan never raises on a label mapping. -/
theorem extract_pharmacokinetics_ok (lv : List (String × JVal)) :
    ∃ x, extract_pharmacokinetics (.obj lv) = .ok x := by
  unfold extract_pharmacokinetics
  rw [jget_d_obj]
  dsimp only
  split
  · exact ⟨_, rfl⟩
  · exact ⟨_, rfl⟩

/-- When the name chain resolves and the label is a string-valued
mapping, the whole extraction chain succeeds and produces a record. -/
theorem transform_core_ok_of_name_some {rf lv : List (String × JVal)}
    (hsv : str_vals lv) {dn : String} {i1 : List Issue} (i0 : List Issue)
    (hname : safe_extract_drug_name rf (.obj lv) = .ok (some dn, i1)) :
    ∃ r iss, transform_core rf (.obj lv) i0 = .ok (some r, iss) := by
  obtain ⟨⟨m, i2⟩, hman⟩ := safe_extract_manufacturer_ok rf lv
  obtain ⟨gn, hgen⟩ := extract_generic_name_ok hsv
  obtain ⟨bn, hbrand⟩ := extract_brand_name_ok hsv dn
  obtain ⟨⟨df, i3⟩, hdf⟩ := extract_dosage_form_ok hsv
  obtain ⟨⟨stg, i4⟩, hstg⟩ := extract_strength_ok hsv
  obtain ⟨⟨rt, i5⟩, hrt⟩ := extract_route_ok hsv
  obtain ⟨nd, hnd⟩ := extract_ndc_ok lv
  obtain ⟨ad, had⟩ := extract_approval_date_ok lv
  obtain ⟨⟨ind, i6⟩, hind⟩ := safe_extract_indications_ok lv
  obtain ⟨mo, hmo⟩ := extract_mechanism_of_action_ok lv
  obtain ⟨pk, hpk⟩ := extract_pharmacokinetics_ok lv
  unfold transform_core
  simp only [hname, hman, hgen, hbrand, hdf, hstg, hrt, hnd, had, hind, hmo, hpk,
    show ∀ k, clean_label_field (.obj lv) k = .ok (clean_html_content (lv.lookup k))
      from fun _ => rfl]
  exact ⟨_, _, rfl⟩

/-- Fact: `_safe_extract_drug_name` never raises on a label mapping. -/
theorem safe_extract_drug_name_ok (rf lv : List (String × JVal)) :
    ∃ x, safe_extract_drug_name rf (.obj lv) = .ok x := by
  unfold safe_extract_drug_name
  rw [show jget (.obj lv) "title" = .ok (lv.lookup "title") from rfl]
  dsimp only
  repeat' split
  all_goals exact ⟨_, rfl⟩

/-- When the name chain fails, the record is rejected with a
missing-drug-name issue. -/
theorem transform_core_name_none {rf : List (String × JVal)} {label : JVal}
    (i0 : List Issue) {i1 : List Issue}
    (hname : safe_extract_drug_name rf label = .ok (none, i1)) :
    transform_core rf label i0 =
      .ok (none, i0 ++ i1 ++ [("Missing drug name", "Cannot process drug without name")]) := by
  unfold transform_core
  rw [hname]

/-- C8 amended.  `transform` rejects every non-mapping; for a mapping
whose `label` value (when present) is itself a mapping with string
values, it rejects exactly when the ordered name fallback chain
(`drugName` → `name` → `productName` → `brandName` → label title)
resolves nothing — but a mapping with a non-mapping `label` value is
also rejected even when a name resolves, because the narrative
extraction raises and the exception handler drops the record
(see the counterexample).  The two spec scenarios hold: an empty
`drugName` with no other name source is rejected, and a document whose
name comes from the `name` key succeeds with an
"Alternative name source" quality issue. -/
theorem transform_rejection_characterization :
    (∀ s : String, (transform (.str s)).1 = none) ∧
    (∀ rf : List (String × JVal), label_ok rf →
      ((transform (.obj rf)).1 = none ↔
        ∃ iss, safe_extract_drug_name rf ((rf.lookup "label").getD (.obj [])) =
          .ok (none, iss))) ∧
    (transform empty_name_doc).1 = none ∧
    ((transform alt_name_doc).1.map (fun r => r.name)) = some "Alt Drug" ∧
    ("Alternative name source", "Used name instead of drugName") ∈
      (transform alt_name_doc).2 := by
  refine ⟨fun s => rfl, ?_, rfl, rfl, by decide⟩
  intro rf hlo
  have hlab : ∃ lv, (rf.lookup "label").getD (.obj []) = .obj lv ∧ str_vals lv := by
    unfold label_ok at hlo
    cases h : rf.lookup "label" with
    | none =>
      refine ⟨[], rfl, ?_⟩
      intro p hp
      exact absurd hp (List.not_mem_nil p)
    | some v =>
      rw [h] at hlo
      cases v with
      | str s => exact False.elim hlo
      | obj lv => exact ⟨lv, rfl, hlo⟩
  obtain ⟨lv, hlv, hsv⟩ := hlab
  constructor
  · intro hnone
    cases hname : safe_extract_drug_name rf ((rf.lookup "label").getD (.obj [])) with
    | error e =>
      obtain ⟨x, hx⟩ := safe_extract_drug_name_ok rf lv
      rw [hlv] at hname
      rw [hname] at hx
      exact Except.noConfusion hx
    | ok p =>
      obtain ⟨dn?, i1⟩ := p
      cases dn? with
      | none => exact ⟨i1, rfl⟩
      | some dn =>
        rw [hlv] at hname
        obtain ⟨r, iss, hco⟩ := transform_core_ok_of_name_some hsv
          (if (JVal.obj lv).truthy then []
           else [("Missing label", "Drug has no label data")]) hname
        have hsome : (transform (.obj rf)).1 = some r := by
          unfold transform
          dsimp only
          unfold transformE
          rw [hlv, hco]
        rw [hsome] at hnone
        exact Option.noConfusion hnone
  · intro hex
    obtain ⟨iss, hname⟩ := hex
    have h2 : transformE rf = .ok (none,
        (if ((rf.lookup "label").getD (.obj [])).truthy then []
         else [("Missing label", "Drug has no label data")]) ++ iss ++
        [("Missing drug name", "Cannot process drug without name")]) := by
      unfold transformE
      exact transform_core_name_none _ hname
    unfold transform
    dsimp only
    rw [h2]

/-- C8 witness: the amended characterization applied to a concrete
mapping without any name source — the chain resolves nothing, so the
record is rejected. -/
theorem transform_rejection_characterization_witness :
    (transform (.obj [("labeler", JVal.str "X")])).1 = none := by
  have h := transform_rejection_characterization.2.1 [("labeler", JVal.str "X")] trivial
  exact h.mpr ⟨[], rfl⟩

/-- C9 witness: a concrete admitted document passes the filter and a
concrete document without clinical content does not. -/
theorem parse_drugs_admission_witness :
    [("drugName", JVal.str "X"), ("labeler", JVal.str "M"),
     ("label", JVal.obj [("indicationsAndUsage", JVal.str "y")])] ∈
      parse_drugs [[("drugName", JVal.str "X"), ("labeler", JVal.str "M"),
        ("label", JVal.obj [("indicationsAndUsage", JVal.str "y")])]] := by
  rw [parse_drugs_admission]
  refine ⟨by simp, ⟨.str "X", rfl, rfl⟩, ⟨.str "M", rfl, rfl⟩,
    ⟨[("indicationsAndUsage", JVal.str "y")], rfl, "indicationsAndUsage", by simp,
      .str "y", rfl, rfl⟩⟩

end DrugPipeline

